import Mathlib

/-!
Verification of the canvas wire-protocol core (buffer, event decoder,
resource handles, ID generators) against its natural-language specification.

The Go code is shallowly embedded: bytes are natural numbers below 256,
byte sequences are lists, Go strings are their UTF-8 byte lists, `uint32`
and `uint64` values are natural numbers with explicit `% 2 ^ 32` / `% 2 ^ 64`
truncation where the Go code converts, and `float64` values are carried as
their IEEE-754 bit patterns (the code itself only ever moves the bit
pattern via math.Float64bits / math.Float64frombits).
-/

namespace Canvas

/-- Big-endian byte decomposition of a 32-bit value, as written by
binary.BigEndian.PutUint32: byte k is the k-th 8-bit slice from the top. -/
def be4 (i : Nat) : List Nat :=
  [i / 2 ^ 24 % 256, i / 2 ^ 16 % 256, i / 2 ^ 8 % 256, i % 256]

/-- Big-endian byte decomposition of a 64-bit value, as written by
binary.BigEndian.PutUint64. -/
def be8 (i : Nat) : List Nat :=
  [i / 2 ^ 56 % 256, i / 2 ^ 48 % 256, i / 2 ^ 40 % 256, i / 2 ^ 32 % 256,
   i / 2 ^ 24 % 256, i / 2 ^ 16 % 256, i / 2 ^ 8 % 256, i % 256]

/-- Big-endian recomposition of the first four bytes of a list, as read by
binary.BigEndian.Uint32 (buffer.go readUint32 calls it on the whole
remaining slice; only indices 0..3 are touched). -/
def beUint32 (b : List Nat) : Nat :=
  b.getD 0 0 * 2 ^ 24 + b.getD 1 0 * 2 ^ 16 + b.getD 2 0 * 2 ^ 8 + b.getD 3 0

/-- Big-endian recomposition of the first eight bytes of a list, as read by
binary.BigEndian.Uint64. -/
def beUint64 (b : List Nat) : Nat :=
  b.getD 0 0 * 2 ^ 56 + b.getD 1 0 * 2 ^ 48 + b.getD 2 0 * 2 ^ 40 +
  b.getD 3 0 * 2 ^ 32 + b.getD 4 0 * 2 ^ 24 + b.getD 5 0 * 2 ^ 16 +
  b.getD 6 0 * 2 ^ 8 + b.getD 7 0

/-- The buffer of buffer.go: a byte sequence plus a last-error slot. -/
structure Buffer where
  bytes : List Nat
  error : Option String
deriving DecidableEq, Repr

/-- buffer.go reset: drops the content (capacity retention is irrelevant to
the value-level model). -/
def Buffer.reset (buf : Buffer) : Buffer :=
  { buf with bytes := [] }

/-- buffer.go dataTooShort: clears the remaining bytes and records the
"data too short" error. -/
def Buffer.dataTooShort (buf : Buffer) : Buffer :=
  { buf.reset with error := some "data too short" }

/-- buffer.go addByte. -/
def Buffer.addByte (buf : Buffer) (b : Nat) : Buffer :=
  { buf with bytes := buf.bytes ++ [b] }

/-- buffer.go addUint32: appends the 4 big-endian bytes. -/
def Buffer.addUint32 (buf : Buffer) (i : Nat) : Buffer :=
  { buf with bytes := buf.bytes ++ be4 i }

/-- buffer.go addFloat64: appends the 8 big-endian bytes of the IEEE-754
bit pattern (math.Float64bits); the argument is that bit pattern. -/
def Buffer.addFloat64 (buf : Buffer) (bits : Nat) : Buffer :=
  { buf with bytes := buf.bytes ++ be8 bits }

/-- buffer.go addBool. -/
def Buffer.addBool (buf : Buffer) (b : Bool) : Buffer :=
  if b then buf.addByte 1 else buf.addByte 0

/-- buffer.go addBytes. -/
def Buffer.addBytes (buf : Buffer) (p : List Nat) : Buffer :=
  { buf with bytes := buf.bytes ++ p }

/-- buffer.go addString: a Go string is its UTF-8 byte list; len(s) is its
byte length, truncated by the uint32 conversion before being appended. -/
def Buffer.addString (buf : Buffer) (s : List Nat) : Buffer :=
  (buf.addUint32 (s.length % 2 ^ 32)).addBytes s

/-- buffer.go readByte. -/
def Buffer.readByte (buf : Buffer) : Nat × Buffer :=
  if buf.bytes.length < 1 then (0, buf.dataTooShort)
  else (buf.bytes.getD 0 0, { buf with bytes := buf.bytes.drop 1 })

/-- buffer.go readUint32. -/
def Buffer.readUint32 (buf : Buffer) : Nat × Buffer :=
  if buf.bytes.length < 4 then (0, buf.dataTooShort)
  else (beUint32 buf.bytes, { buf with bytes := buf.bytes.drop 4 })

/-- buffer.go readUint64. -/
def Buffer.readUint64 (buf : Buffer) : Nat × Buffer :=
  if buf.bytes.length < 8 then (0, buf.dataTooShort)
  else (beUint64 buf.bytes, { buf with bytes := buf.bytes.drop 8 })

/-- buffer.go readFloat64: math.Float64frombits of readUint64; in the
bit-pattern model the returned float64 is that bit pattern. -/
def Buffer.readFloat64 (buf : Buffer) : Nat × Buffer :=
  buf.readUint64

/-- buffer.go readString: reads a 4-byte length, then that many bytes. -/
def Buffer.readString (buf : Buffer) : List Nat × Buffer :=
  let r := buf.readUint32
  let length := r.1
  let buf1 := r.2
  if buf1.bytes.length < length then ([], buf1.dataTooShort)
  else (buf1.bytes.take length, { buf1 with bytes := buf1.bytes.drop length })

/-- The exhausted-with-error buffer state produced by dataTooShort. -/
def errState : Buffer :=
  { bytes := [], error := some "data too short" }

theorem dataTooShort_eq (buf : Buffer) : buf.dataTooShort = errState := rfl

/-- C1: every read primitive on a buffer with fewer remaining bytes than it
requires records the "data too short" error, returns the zero value, and
leaves the byte sequence empty (prongs 1-6, covering readByte, readUint32,
readUint64, readFloat64, readString with a short length prefix, and
readString with a length prefix exceeding the remaining bytes); and on a
buffer already in the recorded-error state every subsequent read again
returns the zero value with the error still set and the sequence still
empty (prong 7). -/
theorem c1_short_read_protocol :
    (∀ buf : Buffer, buf.bytes.length < 1 → buf.readByte = (0, errState)) ∧
    (∀ buf : Buffer, buf.bytes.length < 4 → buf.readUint32 = (0, errState)) ∧
    (∀ buf : Buffer, buf.bytes.length < 8 → buf.readUint64 = (0, errState)) ∧
    (∀ buf : Buffer, buf.bytes.length < 8 → buf.readFloat64 = (0, errState)) ∧
    (∀ buf : Buffer, buf.bytes.length < 4 → buf.readString = ([], errState)) ∧
    (∀ buf : Buffer, ∀ b0 b1 b2 b3 : Nat, ∀ rest : List Nat,
      buf.bytes = b0 :: b1 :: b2 :: b3 :: rest →
      rest.length < b0 * 2 ^ 24 + b1 * 2 ^ 16 + b2 * 2 ^ 8 + b3 →
      buf.readString = ([], errState)) ∧
    (Buffer.readByte errState = (0, errState) ∧
     Buffer.readUint32 errState = (0, errState) ∧
     Buffer.readUint64 errState = (0, errState) ∧
     Buffer.readFloat64 errState = (0, errState) ∧
     Buffer.readString errState = ([], errState)) := by
  refine ⟨?_, ?_, ?_, ?_, ?_, ?_, ?_⟩
  · intro buf h
    simp [Buffer.readByte, h, dataTooShort_eq]
  · intro buf h
    simp [Buffer.readUint32, h, dataTooShort_eq]
  · intro buf h
    simp [Buffer.readUint64, h, dataTooShort_eq]
  · intro buf h
    simp [Buffer.readFloat64, Buffer.readUint64, h, dataTooShort_eq]
  · intro buf h
    simp [Buffer.readString, Buffer.readUint32, h, dataTooShort_eq, errState]
  · intro buf b0 b1 b2 b3 rest hbytes hlen
    have h4 : ¬ buf.bytes.length < 4 := by simp [hbytes]
    have hru : buf.readUint32 =
        (b0 * 2 ^ 24 + b1 * 2 ^ 16 + b2 * 2 ^ 8 + b3,
         { bytes := rest, error := buf.error }) := by
      simp [Buffer.readUint32, h4, hbytes, beUint32]
    simp only [Buffer.readString, hru]
    rw [if_pos (by simpa using hlen)]
    simp [dataTooShort_eq]
  · refine ⟨?_, ?_, ?_, ?_, ?_⟩ <;> rfl

/-- Witness for C1 at concrete inputs: a 3-byte buffer fed to readUint32,
and a string read whose 4-byte length prefix (5) exceeds the single
remaining byte. -/
theorem c1_short_read_protocol_witness :
    Buffer.readUint32 { bytes := [1, 2, 3], error := none } = (0, errState) ∧
    Buffer.readString { bytes := [0, 0, 0, 5, 65], error := none } = ([], errState) := by
  constructor
  · exact c1_short_read_protocol.2.1 { bytes := [1, 2, 3], error := none } (by decide)
  · exact c1_short_read_protocol.2.2.2.2.2.1 { bytes := [0, 0, 0, 5, 65], error := none }
      0 0 0 5 [65] rfl (by decide)

/-- The Go color.Color values addColor can receive. color.RGBA stores 8-bit
alpha-premultiplied channels; color.NRGBA stores 8-bit straight
(non-premultiplied) channels; generic stands for any other implementation,
given by the 16-bit alpha-premultiplied quadruple its RGBA method returns. -/
inductive GoColor where
  | rgba (r g b a : Nat)
  | nrgba (r g b a : Nat)
  | generic (r16 g16 b16 a16 : Nat)
deriving DecidableEq, Repr

/-- The RGBA method of the Go color.Color interface: 16-bit
alpha-premultiplied channels. color.RGBA widens each channel c to
c | c shifted left by 8, i.e. c * 0x101; color.NRGBA additionally
premultiplies: (c * 0x101) * a / 0xff. -/
def GoColor.rgba16 : GoColor → Nat × Nat × Nat × Nat
  | .rgba r g b a => (r * 257, g * 257, b * 257, a * 257)
  | .nrgba r g b a => (r * 257 * a / 255, g * 257 * a / 255, b * 257 * a / 255, a * 257)
  | .generic r g b a => (r, g, b, a)

/-- color.RGBAModel.Convert: a color.RGBA value passes through unchanged;
any other color is reduced to the top 8 bits of each 16-bit RGBA channel
(uint8 of the channel shifted right by 8). -/
def rgbaModel : GoColor → Nat × Nat × Nat × Nat
  | .rgba r g b a => (r, g, b, a)
  | c =>
      let q := c.rgba16
      (q.1 / 256 % 256, q.2.1 / 256 % 256, q.2.2.1 / 256 % 256, q.2.2.2 / 256 % 256)

/-- The four bytes addColor appends for a color: the channels of the
color.RGBAModel conversion, in the order R, G, B, A. -/
def colorBytes (c : GoColor) : List Nat :=
  [(rgbaModel c).1, (rgbaModel c).2.1, (rgbaModel c).2.2.1, (rgbaModel c).2.2.2]

/-- buffer.go addColor: converts through color.RGBAModel and appends the
four channel bytes R, G, B, A. -/
def Buffer.addColor (buf : Buffer) (c : GoColor) : Buffer :=
  let q := rgbaModel c
  (((buf.addByte q.1).addByte q.2.1).addByte q.2.2.1).addByte q.2.2.2

/-- C2 counterexample: the claim requires addColor to append the
NON-premultiplied RGBA components, so the straight-alpha color
NRGBA(255,0,0,128) (full red at 50% alpha) would have to be encoded as
255,0,0,128; addColor actually appends 128,0,0,128, because Go
color.RGBAModel produces alpha-premultiplied channels. -/
theorem c2_counterexample :
    (Buffer.addColor { bytes := [], error := none } (.nrgba 255 0 0 128)).bytes
      = [128, 0, 0, 128] ∧
    ¬ (Buffer.addColor { bytes := [], error := none } (.nrgba 255 0 0 128)).bytes
      = [255, 0, 0, 128] := by
  constructor <;> decide

/-- C2 amended: for every color c, addColor appends exactly the 4 bytes
colorBytes c in the order R, G, B, A, where colorBytes is the 8-bit
ALPHA-PREMULTIPLIED conversion of Go color.RGBAModel (the claim said
non-premultiplied): a color.RGBA value is passed through verbatim; a
straight-alpha color agrees with its non-premultiplied channels exactly
when alpha is 255, and in general each of its colour channels is scaled by
alpha (c * 0x101 * a / 0xff, truncated to 8 bits) while the alpha byte
stays the alpha itself. The error slot is untouched. -/
theorem c2_addColor_bytes :
    (∀ buf : Buffer, ∀ c : GoColor,
      (buf.addColor c).bytes = buf.bytes ++ colorBytes c ∧
      (buf.addColor c).error = buf.error) ∧
    (∀ r g b a : Nat, colorBytes (.rgba r g b a) = [r, g, b, a]) ∧
    (∀ r g b : Nat, r < 256 → g < 256 → b < 256 →
      colorBytes (.nrgba r g b 255) = [r, g, b, 255]) ∧
    (∀ r g b a : Nat, a < 256 →
      colorBytes (.nrgba r g b a) =
        [r * 257 * a / 255 / 256 % 256, g * 257 * a / 255 / 256 % 256,
         b * 257 * a / 255 / 256 % 256, a]) := by
  refine ⟨?_, ?_, ?_, ?_⟩
  · intro buf c
    constructor
    · simp [Buffer.addColor, Buffer.addByte, colorBytes]
    · simp [Buffer.addColor, Buffer.addByte]
  · intro r g b a
    rfl
  · intro r g b hr hg hb
    have e1 : ∀ x : Nat, x < 256 → x * 257 * 255 / 255 / 256 % 256 = x := by
      intro x hx
      have h1 : x * 257 * 255 / 255 = x * 257 := by omega
      have h2 : x * 257 / 256 = x := by omega
      rw [h1, h2, Nat.mod_eq_of_lt hx]
    simp only [colorBytes, rgbaModel, GoColor.rgba16]
    rw [e1 r hr, e1 g hg, e1 b hb]
  · intro r g b a ha
    have h2 : a * 257 / 256 = a := by omega
    simp only [colorBytes, rgbaModel, GoColor.rgba16]
    rw [h2, Nat.mod_eq_of_lt ha]

/-- Witness for C2 amended, at color.RGBA(10,20,30,40) and
NRGBA(200,100,50,128). -/
theorem c2_addColor_bytes_witness :
    (Buffer.addColor { bytes := [7], error := none } (.rgba 10 20 30 40)).bytes
      = [7] ++ colorBytes (.rgba 10 20 30 40) ∧
    colorBytes (.nrgba 200 100 50 255) = [200, 100, 50, 255] ∧
    colorBytes (.nrgba 200 100 50 128) =
      [200 * 257 * 128 / 255 / 256 % 256, 100 * 257 * 128 / 255 / 256 % 256,
       50 * 257 * 128 / 255 / 256 % 256, 128] := by
  refine ⟨(c2_addColor_bytes.1 { bytes := [7], error := none } (.rgba 10 20 30 40)).1, ?_, ?_⟩
  · exact c2_addColor_bytes.2.2.1 200 100 50 (by decide) (by decide) (by decide)
  · exact c2_addColor_bytes.2.2.2 200 100 50 128 (by decide)

/-- event.go MouseEvent: button bitmask, X and Y coordinates (decoded from
uint32, hence non-negative), modifier-key bitmask. -/
structure MouseEvent where
  buttons : Nat
  x : Nat
  y : Nat
  mod : Nat
deriving DecidableEq, Repr

/-- event.go KeyboardEvent: key-name string (as UTF-8 bytes) and
modifier-key bitmask. -/
structure KeyboardEvent where
  key : List Nat
  mod : Nat
deriving DecidableEq, Repr

/-- event.go Touch: one contact point. -/
structure Touch where
  identifier : Nat
  x : Nat
  y : Nat
deriving DecidableEq, Repr

/-- event.go TouchEvent: three touch lists plus the modifier bitmask. -/
structure TouchEvent where
  touches : List Touch
  changedTouches : List Touch
  targetTouches : List Touch
  mod : Nat
deriving DecidableEq, Repr

/-- event.go WheelEvent: an embedded MouseEvent, three float64 deltas
(carried as bit patterns) and the delta-mode byte. -/
structure WheelEvent where
  mouse : MouseEvent
  deltaX : Nat
  deltaY : Nat
  deltaZ : Nat
  deltaMode : Nat
deriving DecidableEq, Repr

/-- The closed union of event.go event types. The plain mouse, keyboard and
touch constructors are the family pseudo-variants (Go MouseEvent,
KeyboardEvent, TouchEvent themselves implement the Event interface); the
rest are the concrete wrapper types. -/
inductive Event where
  | close
  | mouse (e : MouseEvent)
  | mouseMove (e : MouseEvent)
  | mouseDown (e : MouseEvent)
  | mouseUp (e : MouseEvent)
  | click (e : MouseEvent)
  | dblClick (e : MouseEvent)
  | auxClick (e : MouseEvent)
  | keyboard (e : KeyboardEvent)
  | keyDown (e : KeyboardEvent)
  | keyUp (e : KeyboardEvent)
  | wheel (e : WheelEvent)
  | touch (e : TouchEvent)
  | touchStart (e : TouchEvent)
  | touchMove (e : TouchEvent)
  | touchEnd (e : TouchEvent)
  | touchCancel (e : TouchEvent)
deriving DecidableEq, Repr

/-- event.go eventMask bit constants (1 shifted left by iota). -/
def maskMouseMove : Nat := 1

def maskMouseDown : Nat := 2

def maskMouseUp : Nat := 4

def maskKeyDown : Nat := 8

def maskKeyUp : Nat := 16

def maskClick : Nat := 32

def maskDblClick : Nat := 64

def maskAuxClick : Nat := 128

def maskWheel : Nat := 256

def maskTouchStart : Nat := 512

def maskTouchMove : Nat := 1024

def maskTouchEnd : Nat := 2048

def maskTouchCancel : Nat := 4096

/-- The mask method of each event type, from event.go. -/
def Event.mask : Event → Nat
  | .close => 0
  | .mouse _ =>
      maskMouseMove ||| maskMouseUp ||| maskMouseDown ||| maskClick |||
      maskDblClick ||| maskAuxClick
  | .mouseMove _ => maskMouseMove
  | .mouseDown _ => maskMouseDown
  | .mouseUp _ => maskMouseUp
  | .click _ => maskClick
  | .dblClick _ => maskDblClick
  | .auxClick _ => maskAuxClick
  | .keyboard _ => maskKeyDown ||| maskKeyUp
  | .keyDown _ => maskKeyDown
  | .keyUp _ => maskKeyUp
  | .wheel _ => maskWheel
  | .touch _ =>
      maskTouchStart ||| maskTouchMove ||| maskTouchEnd ||| maskTouchCancel
  | .touchStart _ => maskTouchStart
  | .touchMove _ => maskTouchMove
  | .touchEnd _ => maskTouchEnd
  | .touchCancel _ => maskTouchCancel

/-- event.go modifier-key constants and accessors. -/
def modKeyAlt : Nat := 1

def modKeyShift : Nat := 2

def modKeyCtrl : Nat := 4

def modKeyMeta : Nat := 8

/-- ModifierKeys.isPressed from event.go: m AND k is non-zero. -/
def isPressed (m k : Nat) : Bool := m &&& k != 0

def altKey (m : Nat) : Bool := isPressed m modKeyAlt

def shiftKey (m : Nat) : Bool := isPressed m modKeyShift

def ctrlKey (m : Nat) : Bool := isPressed m modKeyCtrl

def metaKey (m : Nat) : Bool := isPressed m modKeyMeta

/-- event.go event-type opcodes (1 + iota). -/
def evMouseMove : Nat := 1

def evMouseDown : Nat := 2

def evMouseUp : Nat := 3

def evKeyDown : Nat := 4

def evKeyUp : Nat := 5

def evClick : Nat := 6

def evDblClick : Nat := 7

def evAuxClick : Nat := 8

def evWheel : Nat := 9

def evTouchStart : Nat := 10

def evTouchMove : Nat := 11

def evTouchEnd : Nat := 12

def evTouchCancel : Nat := 13

/-- event.go decodeMouseEvent: buttons byte, X uint32, Y uint32, mod byte. -/
def decodeMouseEvent (buf : Buffer) : MouseEvent × Buffer :=
  let r1 := buf.readByte
  let r2 := r1.2.readUint32
  let r3 := r2.2.readUint32
  let r4 := r3.2.readByte
  (⟨r1.1, r2.1, r3.1, r4.1⟩, r4.2)

/-- event.go decodeKeyboardEvent: mod byte, then the key string. -/
def decodeKeyboardEvent (buf : Buffer) : KeyboardEvent × Buffer :=
  let r1 := buf.readByte
  let r2 := r1.2.readString
  (⟨r2.1, r1.1⟩, r2.2)

/-- event.go decodeWheelEvent: embedded mouse event, three float64 deltas,
delta-mode byte. -/
def decodeWheelEvent (buf : Buffer) : WheelEvent × Buffer :=
  let r1 := decodeMouseEvent buf
  let r2 := r1.2.readFloat64
  let r3 := r2.2.readFloat64
  let r4 := r3.2.readFloat64
  let r5 := r4.2.readByte
  (⟨r1.1, r2.1, r3.1, r4.1, r5.1⟩, r5.2)

/-- event.go decodeTouch: identifier uint32, X uint32, Y uint32. -/
def decodeTouch (buf : Buffer) : Touch × Buffer :=
  let r1 := buf.readUint32
  let r2 := r1.2.readUint32
  let r3 := r2.2.readUint32
  (⟨r1.1, r2.1, r3.1⟩, r3.2)

/-- The loop body of event.go decodeTouchList: reads the given number of
touches in order. -/
def decodeTouches : Nat → Buffer → List Touch × Buffer
  | 0, buf => ([], buf)
  | n + 1, buf =>
      let r := decodeTouch buf
      let rs := decodeTouches n r.2
      (r.1 :: rs.1, rs.2)

/-- event.go decodeTouchList: a 1-byte count, then that many touches. -/
def decodeTouchList (buf : Buffer) : List Touch × Buffer :=
  let r := buf.readByte
  decodeTouches r.1 r.2

/-- event.go decodeTouchEvent: three touch lists, then the mod byte. -/
def decodeTouchEvent (buf : Buffer) : TouchEvent × Buffer :=
  let r1 := decodeTouchList buf
  let r2 := decodeTouchList r1.2
  let r3 := decodeTouchList r2.2
  let r4 := r3.2.readByte
  (⟨r1.1, r2.1, r3.1, r4.1⟩, r4.2)

/-- The (event, error) result of event.go decodeEventBuf: either an event,
or the unknown-event-type error carrying the offending byte. -/
inductive EventResult where
  | ok (e : Event)
  | unknownEventType (b : Nat)
deriving DecidableEq, Repr

/-- event.go decodeEventBuf: reads the opcode byte and dispatches. -/
def decodeEventBuf (buf : Buffer) : EventResult × Buffer :=
  let r := buf.readByte
  let t := r.1
  let buf1 := r.2
  if t = evMouseMove then
    let m := decodeMouseEvent buf1
    (.ok (.mouseMove m.1), m.2)
  else if t = evMouseDown then
    let m := decodeMouseEvent buf1
    (.ok (.mouseDown m.1), m.2)
  else if t = evMouseUp then
    let m := decodeMouseEvent buf1
    (.ok (.mouseUp m.1), m.2)
  else if t = evKeyDown then
    let k := decodeKeyboardEvent buf1
    (.ok (.keyDown k.1), k.2)
  else if t = evKeyUp then
    let k := decodeKeyboardEvent buf1
    (.ok (.keyUp k.1), k.2)
  else if t = evClick then
    let m := decodeMouseEvent buf1
    (.ok (.click m.1), m.2)
  else if t = evDblClick then
    let m := decodeMouseEvent buf1
    (.ok (.dblClick m.1), m.2)
  else if t = evAuxClick then
    let m := decodeMouseEvent buf1
    (.ok (.auxClick m.1), m.2)
  else if t = evWheel then
    let w := decodeWheelEvent buf1
    (.ok (.wheel w.1), w.2)
  else if t = evTouchStart then
    let u := decodeTouchEvent buf1
    (.ok (.touchStart u.1), u.2)
  else if t = evTouchMove then
    let u := decodeTouchEvent buf1
    (.ok (.touchMove u.1), u.2)
  else if t = evTouchEnd then
    let u := decodeTouchEvent buf1
    (.ok (.touchEnd u.1), u.2)
  else if t = evTouchCancel then
    let u := decodeTouchEvent buf1
    (.ok (.touchCancel u.1), u.2)
  else (.unknownEventType t, buf1)

/-- The overall result of event.go decodeEvent: an event, the buffer's
"data too short" error, or the unknown-event-type error. -/
inductive DecodeResult where
  | ok (e : Event)
  | dataTooShort
  | unknownEventType (b : Nat)
deriving DecidableEq, Repr

/-- event.go decodeEvent: wraps the payload in a buffer, decodes, and gives
the buffer's recorded error precedence over the decode result. -/
def decodeEvent (p : List Nat) : DecodeResult :=
  let r := decodeEventBuf { bytes := p, error := none }
  match r.2.error with
  | some _ => .dataTooShort
  | none =>
      match r.1 with
      | .ok e => .ok e
      | .unknownEventType b => .unknownEventType b

theorem readByte_cons (b : Nat) (rest : List Nat) (e : Option String) :
    Buffer.readByte { bytes := b :: rest, error := e } =
      (b, { bytes := rest, error := e }) := by
  simp [Buffer.readByte]

theorem readUint32_cons (b0 b1 b2 b3 : Nat) (rest : List Nat) (e : Option String) :
    Buffer.readUint32 { bytes := b0 :: b1 :: b2 :: b3 :: rest, error := e } =
      (b0 * 2 ^ 24 + b1 * 2 ^ 16 + b2 * 2 ^ 8 + b3, { bytes := rest, error := e }) := by
  unfold Buffer.readUint32
  split
  · next h =>
      simp at h
      omega
  · simp [beUint32]

theorem readUint32_be4 (x : Nat) (hx : x < 2 ^ 32) (rest : List Nat) (e : Option String) :
    Buffer.readUint32 { bytes := be4 x ++ rest, error := e } =
      (x, { bytes := rest, error := e }) := by
  have hsplit : be4 x ++ rest =
      x / 2 ^ 24 % 256 :: x / 2 ^ 16 % 256 :: x / 2 ^ 8 % 256 :: x % 256 :: rest := rfl
  rw [hsplit, readUint32_cons]
  have hval : x / 2 ^ 24 % 256 * 2 ^ 24 + x / 2 ^ 16 % 256 * 2 ^ 16 +
      x / 2 ^ 8 % 256 * 2 ^ 8 + x % 256 = x := by omega
  rw [hval]

theorem readUint64_cons (b0 b1 b2 b3 b4 b5 b6 b7 : Nat) (rest : List Nat) (e : Option String) :
    Buffer.readUint64 { bytes := b0 :: b1 :: b2 :: b3 :: b4 :: b5 :: b6 :: b7 :: rest, error := e } =
      (b0 * 2 ^ 56 + b1 * 2 ^ 48 + b2 * 2 ^ 40 + b3 * 2 ^ 32 +
       b4 * 2 ^ 24 + b5 * 2 ^ 16 + b6 * 2 ^ 8 + b7,
       { bytes := rest, error := e }) := by
  unfold Buffer.readUint64
  split
  · next h =>
      simp at h
      omega
  · simp [beUint64]

theorem readUint64_be8 (x : Nat) (hx : x < 2 ^ 64) (rest : List Nat) (e : Option String) :
    Buffer.readUint64 { bytes := be8 x ++ rest, error := e } =
      (x, { bytes := rest, error := e }) := by
  have hsplit : be8 x ++ rest =
      x / 2 ^ 56 % 256 :: x / 2 ^ 48 % 256 :: x / 2 ^ 40 % 256 :: x / 2 ^ 32 % 256 ::
      x / 2 ^ 24 % 256 :: x / 2 ^ 16 % 256 :: x / 2 ^ 8 % 256 :: x % 256 :: rest := rfl
  rw [hsplit, readUint64_cons]
  have hval : x / 2 ^ 56 % 256 * 2 ^ 56 + x / 2 ^ 48 % 256 * 2 ^ 48 +
      x / 2 ^ 40 % 256 * 2 ^ 40 + x / 2 ^ 32 % 256 * 2 ^ 32 +
      x / 2 ^ 24 % 256 * 2 ^ 24 + x / 2 ^ 16 % 256 * 2 ^ 16 +
      x / 2 ^ 8 % 256 * 2 ^ 8 + x % 256 = x := by omega
  rw [hval]

theorem decodeMouseEvent_layout (b x y m : Nat) (hx : x < 2 ^ 32) (hy : y < 2 ^ 32)
    (e : Option String) :
    decodeMouseEvent { bytes := b :: (be4 x ++ (be4 y ++ [m])), error := e } =
      (⟨b, x, y, m⟩, { bytes := [], error := e }) := by
  simp [decodeMouseEvent, readByte_cons, readUint32_be4 x hx, readUint32_be4 y hy]

/-- C7: each of the six mouse-family opcodes followed by a button byte, a
big-endian uint32 X, a big-endian uint32 Y, and a modifier byte decodes to
the corresponding mouse event carrying exactly those fields; in particular
the 11 bytes 0x01, 0b00000000, 0,0,0,200, 0,0,0,150, 0b00000101 decode to
a mouse-move event with X=200, Y=150, no buttons, and exactly the Alt and
Ctrl modifiers set. -/
theorem c7_mouse_family_decode :
    (∀ b x y m : Nat, x < 2 ^ 32 → y < 2 ^ 32 →
      decodeEvent (evMouseMove :: b :: (be4 x ++ (be4 y ++ [m]))) =
        .ok (.mouseMove ⟨b, x, y, m⟩) ∧
      decodeEvent (evMouseDown :: b :: (be4 x ++ (be4 y ++ [m]))) =
        .ok (.mouseDown ⟨b, x, y, m⟩) ∧
      decodeEvent (evMouseUp :: b :: (be4 x ++ (be4 y ++ [m]))) =
        .ok (.mouseUp ⟨b, x, y, m⟩) ∧
      decodeEvent (evClick :: b :: (be4 x ++ (be4 y ++ [m]))) =
        .ok (.click ⟨b, x, y, m⟩) ∧
      decodeEvent (evDblClick :: b :: (be4 x ++ (be4 y ++ [m]))) =
        .ok (.dblClick ⟨b, x, y, m⟩) ∧
      decodeEvent (evAuxClick :: b :: (be4 x ++ (be4 y ++ [m]))) =
        .ok (.auxClick ⟨b, x, y, m⟩)) ∧
    (decodeEvent [1, 0, 0, 0, 0, 200, 0, 0, 0, 150, 5] =
      .ok (.mouseMove ⟨0, 200, 150, 5⟩) ∧
     altKey 5 = true ∧ ctrlKey 5 = true ∧ shiftKey 5 = false ∧ metaKey 5 = false) := by
  constructor
  · intro b x y m hx hy
    refine ⟨?_, ?_, ?_, ?_, ?_, ?_⟩ <;>
      simp [decodeEvent, decodeEventBuf, readByte_cons, decodeMouseEvent_layout b x y m hx hy,
        evMouseMove, evMouseDown, evMouseUp, evKeyDown, evKeyUp, evClick, evDblClick, evAuxClick,
        evWheel, evTouchStart, evTouchMove, evTouchEnd, evTouchCancel]
  · exact ⟨by decide, by decide, by decide, by decide, by decide⟩

/-- Witness for C7 at the concrete spec example payload. -/
theorem c7_mouse_family_decode_witness :
    decodeEvent (evMouseMove :: 0 :: (be4 200 ++ (be4 150 ++ [5]))) =
      .ok (.mouseMove ⟨0, 200, 150, 5⟩) :=
  (c7_mouse_family_decode.1 0 200 150 5 (by decide) (by decide)).1

theorem decodeEvent_nil : decodeEvent [] = .dataTooShort := rfl

theorem decodeEvent_unknown_opcode (b : Nat) (rest : List Nat) (h : ¬ (1 ≤ b ∧ b ≤ 13)) :
    decodeEvent (b :: rest) = .unknownEventType b := by
  have h1 : b ≠ 1 := by omega
  have h2 : b ≠ 2 := by omega
  have h3 : b ≠ 3 := by omega
  have h4 : b ≠ 4 := by omega
  have h5 : b ≠ 5 := by omega
  have h6 : b ≠ 6 := by omega
  have h7 : b ≠ 7 := by omega
  have h8 : b ≠ 8 := by omega
  have h9 : b ≠ 9 := by omega
  have h10 : b ≠ 10 := by omega
  have h11 : b ≠ 11 := by omega
  have h12 : b ≠ 12 := by omega
  have h13 : b ≠ 13 := by omega
  simp [decodeEvent, decodeEventBuf, readByte_cons, h1, h2, h3, h4, h5, h6, h7, h8, h9, h10,
    h11, h12, h13, evMouseMove, evMouseDown, evMouseUp, evKeyDown, evKeyUp, evClick, evDblClick,
    evAuxClick, evWheel, evTouchStart, evTouchMove, evTouchEnd, evTouchCancel]

theorem match_error_ne_unknown (bf : Buffer) (e : Event) (b : Nat) :
    (match bf.error with
     | some _ => DecodeResult.dataTooShort
     | none => DecodeResult.ok e) ≠ .unknownEventType b := by
  cases bf.error <;> simp

set_option maxHeartbeats 1000000 in
theorem decodeEventBuf_shape (buf : Buffer) :
    (∃ e, (decodeEventBuf buf).1 = .ok e) ∨
    decodeEventBuf buf = (.unknownEventType (buf.readByte).1, (buf.readByte).2) := by
  rcases hr : buf.readByte with ⟨t, buf1⟩
  unfold decodeEventBuf
  rw [hr]
  simp only []
  generalize decodeMouseEvent buf1 = M
  generalize decodeKeyboardEvent buf1 = K
  generalize decodeWheelEvent buf1 = W
  generalize decodeTouchEvent buf1 = U
  by_cases h1 : t = evMouseMove
  · rw [if_pos h1]; exact Or.inl ⟨_, rfl⟩
  rw [if_neg h1]
  by_cases h2 : t = evMouseDown
  · rw [if_pos h2]; exact Or.inl ⟨_, rfl⟩
  rw [if_neg h2]
  by_cases h3 : t = evMouseUp
  · rw [if_pos h3]; exact Or.inl ⟨_, rfl⟩
  rw [if_neg h3]
  by_cases h4 : t = evKeyDown
  · rw [if_pos h4]; exact Or.inl ⟨_, rfl⟩
  rw [if_neg h4]
  by_cases h5 : t = evKeyUp
  · rw [if_pos h5]; exact Or.inl ⟨_, rfl⟩
  rw [if_neg h5]
  by_cases h6 : t = evClick
  · rw [if_pos h6]; exact Or.inl ⟨_, rfl⟩
  rw [if_neg h6]
  by_cases h7 : t = evDblClick
  · rw [if_pos h7]; exact Or.inl ⟨_, rfl⟩
  rw [if_neg h7]
  by_cases h8 : t = evAuxClick
  · rw [if_pos h8]; exact Or.inl ⟨_, rfl⟩
  rw [if_neg h8]
  by_cases h9 : t = evWheel
  · rw [if_pos h9]; exact Or.inl ⟨_, rfl⟩
  rw [if_neg h9]
  by_cases h10 : t = evTouchStart
  · rw [if_pos h10]; exact Or.inl ⟨_, rfl⟩
  rw [if_neg h10]
  by_cases h11 : t = evTouchMove
  · rw [if_pos h11]; exact Or.inl ⟨_, rfl⟩
  rw [if_neg h11]
  by_cases h12 : t = evTouchEnd
  · rw [if_pos h12]; exact Or.inl ⟨_, rfl⟩
  rw [if_neg h12]
  by_cases h13 : t = evTouchCancel
  · rw [if_pos h13]; exact Or.inl ⟨_, rfl⟩
  rw [if_neg h13]
  exact Or.inr rfl

theorem decodeEvent_unknown_inv (p : List Nat) (b : Nat)
    (h : decodeEvent p = .unknownEventType b) : p.head? = some b := by
  match p with
  | [] =>
      rw [decodeEvent_nil] at h
      exact DecodeResult.noConfusion h
  | hd :: tl =>
      rcases decodeEventBuf_shape { bytes := hd :: tl, error := none } with ⟨e, hok⟩ | huk
      · exfalso
        simp only [decodeEvent] at h
        cases herr : (decodeEventBuf { bytes := hd :: tl, error := none }).2.error with
        | some s =>
            simp only [herr] at h
            exact DecodeResult.noConfusion h
        | none =>
            simp only [herr, hok] at h
            exact DecodeResult.noConfusion h
      · simp only [decodeEvent, huk, readByte_cons] at h
        cases h
        rfl

/-- C6: a non-empty payload whose leading byte is not one of the 13 known
event opcodes decodes to the unknown-event-type error carrying that byte;
the empty payload decodes to the data-too-short error; and whenever the
decoding session records the buffer error, decodeEvent reports the
data-too-short error, never the unknown-event-type error. -/
theorem c6_unknown_vs_short :
    (∀ b : Nat, ∀ rest : List Nat, ¬ (1 ≤ b ∧ b ≤ 13) →
      decodeEvent (b :: rest) = .unknownEventType b) ∧
    decodeEvent [] = .dataTooShort ∧
    (∀ p : List Nat,
      ((decodeEventBuf { bytes := p, error := none }).2.error).isSome →
      decodeEvent p = .dataTooShort) := by
  refine ⟨decodeEvent_unknown_opcode, decodeEvent_nil, ?_⟩
  intro p h
  simp only [decodeEvent]
  cases herr : (decodeEventBuf { bytes := p, error := none }).2.error with
  | none =>
      rw [herr] at h
      simp at h
  | some s => simp [herr]

/-- Witness for C6: opcode byte 99 with a non-empty tail yields the
unknown-event-type error for 99; a truncated mouse-move payload records
the buffer error and yields the data-too-short error. -/
theorem c6_unknown_vs_short_witness :
    decodeEvent [99, 0] = .unknownEventType 99 ∧
    decodeEvent [1, 0, 0] = .dataTooShort := by
  constructor
  · exact c6_unknown_vs_short.1 99 [0] (by decide)
  · exact c6_unknown_vs_short.2.2 [1, 0, 0] (by decide)

theorem readByte_suffix (buf : Buffer) :
    List.IsSuffix (buf.readByte).2.bytes buf.bytes := by
  unfold Buffer.readByte
  split
  · exact List.nil_suffix
  · exact List.drop_suffix 1 buf.bytes

theorem readUint32_suffix (buf : Buffer) :
    List.IsSuffix (buf.readUint32).2.bytes buf.bytes := by
  unfold Buffer.readUint32
  split
  · exact List.nil_suffix
  · exact List.drop_suffix 4 buf.bytes

theorem readUint64_suffix (buf : Buffer) :
    List.IsSuffix (buf.readUint64).2.bytes buf.bytes := by
  unfold Buffer.readUint64
  split
  · exact List.nil_suffix
  · exact List.drop_suffix 8 buf.bytes

theorem readFloat64_suffix (buf : Buffer) :
    List.IsSuffix (buf.readFloat64).2.bytes buf.bytes :=
  readUint64_suffix buf

theorem readString_suffix (buf : Buffer) :
    List.IsSuffix (buf.readString).2.bytes buf.bytes := by
  have h1 := readUint32_suffix buf
  simp only [Buffer.readString]
  split
  · exact List.nil_suffix
  · exact ((List.drop_suffix _ _).trans h1)

theorem decodeMouseEvent_suffix (buf : Buffer) :
    List.IsSuffix (decodeMouseEvent buf).2.bytes buf.bytes := by
  simp only [decodeMouseEvent]
  exact (readByte_suffix _).trans ((readUint32_suffix _).trans
    ((readUint32_suffix _).trans (readByte_suffix buf)))

theorem decodeKeyboardEvent_suffix (buf : Buffer) :
    List.IsSuffix (decodeKeyboardEvent buf).2.bytes buf.bytes := by
  simp only [decodeKeyboardEvent]
  exact (readString_suffix _).trans (readByte_suffix buf)

theorem decodeWheelEvent_suffix (buf : Buffer) :
    List.IsSuffix (decodeWheelEvent buf).2.bytes buf.bytes := by
  simp only [decodeWheelEvent]
  exact (readByte_suffix _).trans ((readFloat64_suffix _).trans
    ((readFloat64_suffix _).trans ((readFloat64_suffix _).trans
      (decodeMouseEvent_suffix buf))))

theorem decodeTouch_suffix (buf : Buffer) :
    List.IsSuffix (decodeTouch buf).2.bytes buf.bytes := by
  simp only [decodeTouch]
  exact (readUint32_suffix _).trans ((readUint32_suffix _).trans (readUint32_suffix buf))

theorem decodeTouches_suffix (n : Nat) (buf : Buffer) :
    List.IsSuffix (decodeTouches n buf).2.bytes buf.bytes := by
  induction n generalizing buf with
  | zero => exact List.suffix_refl _
  | succ k ih =>
      simp only [decodeTouches]
      exact (ih _).trans (decodeTouch_suffix buf)

theorem decodeTouchList_suffix (buf : Buffer) :
    List.IsSuffix (decodeTouchList buf).2.bytes buf.bytes := by
  simp only [decodeTouchList]
  exact (decodeTouches_suffix _ _).trans (readByte_suffix buf)

theorem decodeTouchEvent_suffix (buf : Buffer) :
    List.IsSuffix (decodeTouchEvent buf).2.bytes buf.bytes := by
  simp only [decodeTouchEvent]
  exact (readByte_suffix _).trans ((decodeTouchList_suffix _).trans
    ((decodeTouchList_suffix _).trans (decodeTouchList_suffix buf)))

set_option maxHeartbeats 1000000 in
theorem decodeEventBuf_suffix (buf : Buffer) :
    List.IsSuffix (decodeEventBuf buf).2.bytes buf.bytes := by
  rcases hr : buf.readByte with ⟨t, buf1⟩
  have hb1 : List.IsSuffix buf1.bytes buf.bytes := by
    have h := readByte_suffix buf
    rw [hr] at h
    exact h
  have hm := decodeMouseEvent_suffix buf1
  have hk := decodeKeyboardEvent_suffix buf1
  have hw := decodeWheelEvent_suffix buf1
  have hu := decodeTouchEvent_suffix buf1
  unfold decodeEventBuf
  rw [hr]
  simp only []
  generalize hM : decodeMouseEvent buf1 = M
  rw [hM] at hm
  generalize hK : decodeKeyboardEvent buf1 = K
  rw [hK] at hk
  generalize hW : decodeWheelEvent buf1 = W
  rw [hW] at hw
  generalize hU : decodeTouchEvent buf1 = U
  rw [hU] at hu
  by_cases h1 : t = evMouseMove
  · rw [if_pos h1]; exact hm.trans hb1
  rw [if_neg h1]
  by_cases h2 : t = evMouseDown
  · rw [if_pos h2]; exact hm.trans hb1
  rw [if_neg h2]
  by_cases h3 : t = evMouseUp
  · rw [if_pos h3]; exact hm.trans hb1
  rw [if_neg h3]
  by_cases h4 : t = evKeyDown
  · rw [if_pos h4]; exact hk.trans hb1
  rw [if_neg h4]
  by_cases h5 : t = evKeyUp
  · rw [if_pos h5]; exact hk.trans hb1
  rw [if_neg h5]
  by_cases h6 : t = evClick
  · rw [if_pos h6]; exact hm.trans hb1
  rw [if_neg h6]
  by_cases h7 : t = evDblClick
  · rw [if_pos h7]; exact hm.trans hb1
  rw [if_neg h7]
  by_cases h8 : t = evAuxClick
  · rw [if_pos h8]; exact hm.trans hb1
  rw [if_neg h8]
  by_cases h9 : t = evWheel
  · rw [if_pos h9]; exact hw.trans hb1
  rw [if_neg h9]
  by_cases h10 : t = evTouchStart
  · rw [if_pos h10]; exact hu.trans hb1
  rw [if_neg h10]
  by_cases h11 : t = evTouchMove
  · rw [if_pos h11]; exact hu.trans hb1
  rw [if_neg h11]
  by_cases h12 : t = evTouchEnd
  · rw [if_pos h12]; exact hu.trans hb1
  rw [if_neg h12]
  by_cases h13 : t = evTouchCancel
  · rw [if_pos h13]; exact hu.trans hb1
  rw [if_neg h13]
  exact hb1

/-- C10: decodeEvent is total and bounds-checked: for every payload the
decoding session leaves a suffix of the payload (every primitive read
consumes only remaining bytes, never accessing out of bounds), the result
is always exactly one of event / data-too-short / unknown-event-type, and
an unknown-event-type result always carries the payload's own leading
byte. -/
theorem c10_decode_total :
    ∀ p : List Nat,
      List.IsSuffix (decodeEventBuf { bytes := p, error := none }).2.bytes p ∧
      (∀ b : Nat, decodeEvent p = .unknownEventType b → p.head? = some b) ∧
      ((∃ e, decodeEvent p = .ok e) ∨ decodeEvent p = .dataTooShort ∨
        ∃ b, decodeEvent p = .unknownEventType b) := by
  intro p
  refine ⟨decodeEventBuf_suffix _, ?_, ?_⟩
  · intro b h
    exact decodeEvent_unknown_inv p b h
  · match hres : decodeEvent p with
    | .ok e => exact Or.inl ⟨e, rfl⟩
    | .dataTooShort => exact Or.inr (Or.inl rfl)
    | .unknownEventType b => exact Or.inr (Or.inr ⟨b, rfl⟩)

/-- Witness for C10 at the payload 99 :: 7 :: nil, whose leading byte is an
unknown opcode: the carried byte is the payload head. -/
theorem c10_decode_total_witness : ([99, 7] : List Nat).head? = some 99 :=
  (c10_decode_total [99, 7]).2.1 99 (by decide)

/-- options.go eventMask: folds the enabled events, OR-ing each mask into
an accumulator that starts at zero. -/
def Options.eventMask (enabledEvents : List Event) : Nat :=
  enabledEvents.foldl (fun mask e => mask ||| e.mask) 0

theorem foldl_or_acc (l : List Event) (a : Nat) :
    l.foldl (fun mask e => mask ||| e.mask) a =
      a ||| l.foldl (fun mask e => mask ||| e.mask) 0 := by
  induction l generalizing a with
  | nil => simp
  | cons x xs ih =>
      simp only [List.foldl_cons]
      rw [ih (a ||| x.mask), ih (0 ||| x.mask), Nat.zero_or, Nat.or_assoc]

/-- C9: the subscription mask is the OR, from zero, of the listed events'
mask contributions: the empty list gives 0, each cons ORs in that event's
mask, a CloseEvent contributes 0 in any position, and the plain MouseEvent
pseudo-variant contributes exactly the OR of the six concrete mouse
variants' bits, whose value is 231 (no other bits). -/
theorem c9_event_mask_composition :
    Options.eventMask [] = 0 ∧
    (∀ e : Event, ∀ es : List Event,
      Options.eventMask (e :: es) = e.mask ||| Options.eventMask es) ∧
    (∀ es1 es2 : List Event,
      Options.eventMask (es1 ++ Event.close :: es2) = Options.eventMask (es1 ++ es2)) ∧
    Event.mask .close = 0 ∧
    (∀ m : MouseEvent, Event.mask (.mouse m) =
      maskMouseMove ||| maskMouseDown ||| maskMouseUp ||| maskClick |||
      maskDblClick ||| maskAuxClick) ∧
    (∀ m : MouseEvent, Event.mask (.mouse m) = 231) ∧
    (∀ m : MouseEvent, Options.eventMask [.mouse m] = 231) := by
  refine ⟨rfl, ?_, ?_, rfl, ?_, ?_, ?_⟩
  · intro e es
    simp only [Options.eventMask, List.foldl_cons, Nat.zero_or]
    exact foldl_or_acc es e.mask
  · intro es1 es2
    simp only [Options.eventMask, List.foldl_append, List.foldl_cons]
    have hclose : Event.mask .close = 0 := rfl
    rw [hclose, Nat.or_zero]
  · intro m
    simp only [Event.mask]
    decide
  · intro m
    simp only [Event.mask]
    decide
  · intro m
    simp only [Options.eventMask, List.foldl_cons, List.foldl_nil, Event.mask]
    decide

/-- NaN test on an IEEE-754 binary64 bit pattern: exponent field all ones
and non-zero mantissa (math.IsNaN equivalent). -/
def isNaNbits (b : Nat) : Bool :=
  b / 2 ^ 52 % 2 ^ 11 == 2047 && b % 2 ^ 52 != 0

/-- The Go float64 == comparison, expressed on bit patterns: false whenever
either operand is NaN; the two zero patterns (+0 and -0) compare equal;
otherwise two non-NaN binary64 bit patterns are equal exactly when they
denote the same value, i.e. when the patterns coincide. -/
def goFloat64Eq (a b : Nat) : Bool :=
  !isNaNbits a && !isNaNbits b && (a == b || (a % 2 ^ 63 == 0 && b % 2 ^ 63 == 0))

/-- The quiet-NaN bit pattern produced by 0x7ff8000000000000. -/
def nanBits : Nat := 0x7ff8000000000000

/-- C5 counterexample: the claim asserts plain equality read(write(x)) == x
also for NaN; writing the NaN bit pattern and reading it back preserves the
bit pattern exactly, but the Go float64 comparison readFloat64(...) == NaN
is false, because NaN compares unequal to everything including itself. -/
theorem c5_counterexample :
    (Buffer.readFloat64 (Buffer.addFloat64 { bytes := [], error := none } nanBits)).1
      = nanBits ∧
    goFloat64Eq
      (Buffer.readFloat64 (Buffer.addFloat64 { bytes := [], error := none } nanBits)).1
      nanBits = false := by
  constructor
  · decide
  · decide

/-- C5 amended: for each primitive writer/reader pair, reading a fresh
buffer holding exactly the written bytes returns the written value: bytes,
uint32 values, strings of byte length below 2^32 (the 4-byte length prefix
is the byte count), and float64 values as exact bit patterns — so the Go
== comparison succeeds for every non-NaN float64 including ±Inf and
min/max, while for NaN the bit pattern still round-trips but == is false
(see the counterexample). -/
theorem c5_roundtrip :
    (∀ b : Nat, b < 256 →
      Buffer.readByte (Buffer.addByte { bytes := [], error := none } b) =
        (b, { bytes := [], error := none })) ∧
    (∀ i : Nat, i < 2 ^ 32 →
      Buffer.readUint32 (Buffer.addUint32 { bytes := [], error := none } i) =
        (i, { bytes := [], error := none })) ∧
    (∀ bits : Nat, bits < 2 ^ 64 →
      Buffer.readFloat64 (Buffer.addFloat64 { bytes := [], error := none } bits) =
        (bits, { bytes := [], error := none })) ∧
    (∀ s : List Nat, s.length < 2 ^ 32 →
      Buffer.readString (Buffer.addString { bytes := [], error := none } s) =
        (s, { bytes := [], error := none })) ∧
    (∀ s : List Nat,
      (Buffer.addString { bytes := [], error := none } s).bytes =
        be4 (s.length % 2 ^ 32) ++ s) ∧
    (∀ bits : Nat, bits < 2 ^ 64 → isNaNbits bits = false →
      goFloat64Eq
        (Buffer.readFloat64 (Buffer.addFloat64 { bytes := [], error := none } bits)).1
        bits = true) := by
  have hfloat : ∀ bits : Nat, bits < 2 ^ 64 →
      Buffer.readFloat64 (Buffer.addFloat64 { bytes := [], error := none } bits) =
        (bits, { bytes := [], error := none }) := by
    intro bits hb
    have h := readUint64_be8 bits hb [] none
    simpa [Buffer.addFloat64, Buffer.readFloat64] using h
  refine ⟨?_, ?_, hfloat, ?_, ?_, ?_⟩
  · intro b hb
    simp [Buffer.addByte, Buffer.readByte]
  · intro i hi
    have h := readUint32_be4 i hi [] none
    simpa [Buffer.addUint32] using h
  · intro s hlen
    have hmod : s.length % 2 ^ 32 = s.length := Nat.mod_eq_of_lt hlen
    have hread : Buffer.readUint32 { bytes := be4 (s.length % 2 ^ 32) ++ s, error := none } =
        (s.length, { bytes := s, error := none }) := by
      rw [readUint32_be4 (s.length % 2 ^ 32) (Nat.mod_lt _ (by norm_num)) s none, hmod]
    simp only [Buffer.addString, Buffer.addUint32, Buffer.addBytes, List.nil_append,
      List.append_assoc] at hread ⊢
    simp only [Buffer.readString, hread]
    simp
  · intro s
    simp [Buffer.addString, Buffer.addUint32, Buffer.addBytes]
  · intro bits hb hnan
    rw [hfloat bits hb]
    simp [goFloat64Eq, hnan]

/-- Witness for C5 amended: byte 255, uint32 max, the +Inf bit pattern, and
the 6-byte UTF-8 string for the umlaut sample, whose length prefix is the
byte count 6. -/
theorem c5_roundtrip_witness :
    Buffer.readString
        (Buffer.addString { bytes := [], error := none } [195, 164, 195, 182, 195, 188]) =
      ([195, 164, 195, 182, 195, 188], { bytes := [], error := none }) ∧
    (Buffer.addString { bytes := [], error := none } [195, 164, 195, 182, 195, 188]).bytes =
      [0, 0, 0, 6, 195, 164, 195, 182, 195, 188] ∧
    Buffer.readByte (Buffer.addByte { bytes := [], error := none } 255) =
      (255, { bytes := [], error := none }) ∧
    Buffer.readUint32 (Buffer.addUint32 { bytes := [], error := none } 4294967295) =
      (4294967295, { bytes := [], error := none }) ∧
    goFloat64Eq
      (Buffer.readFloat64
        (Buffer.addFloat64 { bytes := [], error := none } 0x7ff0000000000000)).1
      0x7ff0000000000000 = true := by
  refine ⟨c5_roundtrip.2.2.2.1 [195, 164, 195, 182, 195, 188] (by decide), by decide,
    c5_roundtrip.1 255 (by decide), c5_roundtrip.2.1 4294967295 (by decide),
    c5_roundtrip.2.2.2.2.2 0x7ff0000000000000 (by decide) (by decide)⟩

/-- Draw opcode constants from enums.go (1 + iota, with one reserved slot
after bCreateRadialGradient). -/
def bCreateImageData : Nat := 8

def bCreateLinearGradient : Nat := 9

def bCreatePattern : Nat := 10

def bCreateRadialGradient : Nat := 11

def bDrawImage : Nat := 13

def bGradientAddColorStop : Nat := 20

def bFillStyleGradient : Nat := 22

def bReleasePattern : Nat := 27

def bReleaseGradient : Nat := 33

def bPutImageData : Nat := 36

def bReleaseImageData : Nat := 65

def bFillStylePattern : Nat := 66

def bGetImageData : Nat := 68

/-- The server-side Context: the outbound buffer and the three per-kind
idGenerator counters (imageDataIDs, gradientIDs, patternIDs), from the
current context.go. Channels and config do not affect the claims and are
omitted. -/
structure Context where
  buf : Buffer
  imageDataIDs : Nat
  gradientIDs : Nat
  patternIDs : Nat
deriving DecidableEq, Repr

/-- newContext: all idGenerator counters are zero-valued and the buffer is
empty. -/
def newContext : Context :=
  { buf := { bytes := [], error := none }, imageDataIDs := 0, gradientIDs := 0, patternIDs := 0 }

/-- gradient.go Gradient handle: id plus released flag (the ctx back
reference is passed explicitly to the operations). -/
structure Gradient where
  id : Nat
  released : Bool
deriving DecidableEq, Repr

/-- image.go ImageData handle: id, dimensions, released flag. -/
structure ImageData where
  id : Nat
  width : Int
  height : Int
  released : Bool
deriving DecidableEq, Repr

/-- Modelled from the spec: the current pattern.go (a Pattern handle with a
released flag, checked by checkUseAfterRelease) is not among the source
files; only its callers Context.CreatePattern and Context.SetFillStylePattern
are. Per spec section 4.6 a handle holds an id and a released flag. -/
structure Pattern where
  id : Nat
  released : Bool
deriving DecidableEq, Repr

/-- An already-RGBA source image for CreateImageData (the *image.RGBA case
of ensureRGBA, which returns such an image unchanged): bounds and the
row-major 8-bit RGBA pixel bytes. -/
structure RGBAImage where
  width : Nat
  height : Nat
  pix : List Nat
deriving DecidableEq, Repr

/-- The Go conversion int(f) for a float64 bit pattern: truncation toward
zero for finite values (out-of-range and NaN conversions are unspecified in
Go; the same formula is used for them here). -/
def float64toInt (bits : Nat) : Int :=
  let sign := bits / 2 ^ 63
  let e := bits / 2 ^ 52 % 2 ^ 11
  let frac := bits % 2 ^ 52
  let mag : Nat :=
    if e < 1023 then 0
    else if e ≤ 1075 then (2 ^ 52 + frac) / 2 ^ (1075 - e)
    else (2 ^ 52 + frac) * 2 ^ (e - 1075)
  if sign = 1 then -(mag : Int) else (mag : Int)

/-- gradient.go AddColorStop: panics (modelled as a some-message result,
with the context unchanged) when the gradient is released; otherwise
appends opcode, id, offset, color. -/
def Gradient.AddColorStop (g : Gradient) (ctx : Context) (offset : Nat) (c : GoColor) :
    Option String × Context :=
  if g.released then (some "Gradient: use after release", ctx)
  else (none, { ctx with buf :=
    (((ctx.buf.addByte bGradientAddColorStop).addUint32 g.id).addFloat64 offset).addColor c })

/-- context.go SetFillStyleGradient: checks use-after-release, then appends
opcode and gradient id. -/
def Context.SetFillStyleGradient (ctx : Context) (g : Gradient) : Option String × Context :=
  if g.released then (some "Gradient: use after release", ctx)
  else (none, { ctx with buf := (ctx.buf.addByte bFillStyleGradient).addUint32 g.id })

/-- context.go SetFillStylePattern: checks use-after-release (the check
itself is the spec-modelled Pattern.checkUseAfterRelease), then appends
opcode and pattern id. -/
def Context.SetFillStylePattern (ctx : Context) (p : Pattern) : Option String × Context :=
  if p.released then (some "Pattern: use after release", ctx)
  else (none, { ctx with buf := (ctx.buf.addByte bFillStylePattern).addUint32 p.id })

/-- context.go PutImageData: checks use-after-release, then appends opcode,
id, dx, dy. -/
def Context.PutImageData (ctx : Context) (src : ImageData) (dx dy : Nat) :
    Option String × Context :=
  if src.released then (some "ImageData: use after release", ctx)
  else (none, { ctx with buf :=
    (((ctx.buf.addByte bPutImageData).addUint32 src.id).addFloat64 dx).addFloat64 dy })

/-- context.go DrawImage: checks use-after-release, then appends opcode,
id, dx, dy. -/
def Context.DrawImage (ctx : Context) (src : ImageData) (dx dy : Nat) :
    Option String × Context :=
  if src.released then (some "ImageData: use after release", ctx)
  else (none, { ctx with buf :=
    (((ctx.buf.addByte bDrawImage).addUint32 src.id).addFloat64 dx).addFloat64 dy })

/-- context.go CreatePattern: checks the source image for use-after-release,
takes the next pattern id (idGenerator.generateID: return the counter, then
increment it as a uint32), appends opcode, pattern id, image id, repetition
byte, and returns the fresh handle. -/
def Context.CreatePattern (ctx : Context) (src : ImageData) (repetition : Nat) :
    Option String × Context × Option Pattern :=
  if src.released then (some "ImageData: use after release", ctx, none)
  else
    (none,
     { ctx with
       patternIDs := (ctx.patternIDs + 1) % 4294967296,
       buf := (((ctx.buf.addByte bCreatePattern).addUint32 ctx.patternIDs).addUint32
         src.id).addByte repetition },
     some { id := ctx.patternIDs, released := false })

/-- context.go CreateLinearGradient: next gradient id, opcode, id, the four
coordinates, and a fresh handle. -/
def Context.CreateLinearGradient (ctx : Context) (x0 y0 x1 y1 : Nat) : Context × Gradient :=
  ({ ctx with
     gradientIDs := (ctx.gradientIDs + 1) % 4294967296,
     buf := (((((ctx.buf.addByte bCreateLinearGradient).addUint32
       ctx.gradientIDs).addFloat64 x0).addFloat64 y0).addFloat64 x1).addFloat64 y1 },
   { id := ctx.gradientIDs, released := false })

/-- context.go CreateRadialGradient: next gradient id, opcode, id, the six
circle parameters, and a fresh handle. -/
def Context.CreateRadialGradient (ctx : Context) (x0 y0 r0 x1 y1 r1 : Nat) :
    Context × Gradient :=
  ({ ctx with
     gradientIDs := (ctx.gradientIDs + 1) % 4294967296,
     buf := (((((((ctx.buf.addByte bCreateRadialGradient).addUint32
       ctx.gradientIDs).addFloat64 x0).addFloat64 y0).addFloat64 r0).addFloat64
         x1).addFloat64 y1).addFloat64 r1 },
   { id := ctx.gradientIDs, released := false })

/-- context.go CreateImageData: next image-data id, opcode, id, width,
height (uint32 conversions), raw pixels, and a fresh handle carrying the
bounds. -/
def Context.CreateImageData (ctx : Context) (m : RGBAImage) : Context × ImageData :=
  ({ ctx with
     imageDataIDs := (ctx.imageDataIDs + 1) % 4294967296,
     buf := ((((ctx.buf.addByte bCreateImageData).addUint32
       ctx.imageDataIDs).addUint32 (m.width % 2 ^ 32)).addUint32
         (m.height % 2 ^ 32)).addBytes m.pix },
   { id := ctx.imageDataIDs, width := (m.width : Int), height := (m.height : Int),
     released := false })

/-- context.go GetImageData: next image-data id, opcode, id, the four
rectangle floats, and a fresh handle whose dimensions are int conversions
of the float width and height. -/
def Context.GetImageData (ctx : Context) (sx sy sw sh : Nat) : Context × ImageData :=
  ({ ctx with
     imageDataIDs := (ctx.imageDataIDs + 1) % 4294967296,
     buf := (((((ctx.buf.addByte bGetImageData).addUint32
       ctx.imageDataIDs).addFloat64 sx).addFloat64 sy).addFloat64 sw).addFloat64 sh },
   { id := ctx.imageDataIDs, width := float64toInt sw, height := float64toInt sh,
     released := false })

/-- gradient.go Release: a no-op when already released; otherwise appends
the release opcode and id, and marks the handle released. -/
def Gradient.Release (g : Gradient) (ctx : Context) : Gradient × Context :=
  if g.released then (g, ctx)
  else ({ g with released := true },
        { ctx with buf := (ctx.buf.addByte bReleaseGradient).addUint32 g.id })

/-- image.go ImageData.Release: a no-op when already released; otherwise
appends the release opcode and id, and marks the handle released. -/
def ImageData.Release (m : ImageData) (ctx : Context) : ImageData × Context :=
  if m.released then (m, ctx)
  else ({ m with released := true },
        { ctx with buf := (ctx.buf.addByte bReleaseImageData).addUint32 m.id })

/-- Modelled from the spec: the current pattern.go Release is not among the
source files; per spec sections 3 and 4.6, Release is idempotent — it
appends the release opcode and id only the first time and marks the handle
released; subsequent calls are no-ops. -/
def Pattern.Release (p : Pattern) (ctx : Context) : Pattern × Context :=
  if p.released then (p, ctx)
  else ({ p with released := true },
        { ctx with buf := (ctx.buf.addByte bReleasePattern).addUint32 p.id })

/-- C3: every listed operation invoked on a released handle faults with the
message naming the handle kind and leaves the context — in particular its
output buffer — exactly as it was before the call. -/
theorem c3_use_after_release :
    (∀ ctx : Context, ∀ g : Gradient, ∀ offset : Nat, ∀ c : GoColor, g.released = true →
      Gradient.AddColorStop g ctx offset c = (some "Gradient: use after release", ctx)) ∧
    (∀ ctx : Context, ∀ g : Gradient, g.released = true →
      Context.SetFillStyleGradient ctx g = (some "Gradient: use after release", ctx)) ∧
    (∀ ctx : Context, ∀ src : ImageData, ∀ dx dy : Nat, src.released = true →
      Context.PutImageData ctx src dx dy = (some "ImageData: use after release", ctx)) ∧
    (∀ ctx : Context, ∀ src : ImageData, ∀ dx dy : Nat, src.released = true →
      Context.DrawImage ctx src dx dy = (some "ImageData: use after release", ctx)) ∧
    (∀ ctx : Context, ∀ src : ImageData, ∀ rep : Nat, src.released = true →
      Context.CreatePattern ctx src rep = (some "ImageData: use after release", ctx, none)) ∧
    (∀ ctx : Context, ∀ p : Pattern, p.released = true →
      Context.SetFillStylePattern ctx p = (some "Pattern: use after release", ctx)) := by
  refine ⟨?_, ?_, ?_, ?_, ?_, ?_⟩
  · intro ctx g offset c h
    simp [Gradient.AddColorStop, h]
  · intro ctx g h
    simp [Context.SetFillStyleGradient, h]
  · intro ctx src dx dy h
    simp [Context.PutImageData, h]
  · intro ctx src dx dy h
    simp [Context.DrawImage, h]
  · intro ctx src rep h
    simp [Context.CreatePattern, h]
  · intro ctx p h
    simp [Context.SetFillStylePattern, h]

/-- Witness for C3 on released handles over a fresh context. -/
theorem c3_use_after_release_witness :
    Gradient.AddColorStop { id := 3, released := true } newContext 0 (.rgba 1 2 3 4) =
      (some "Gradient: use after release", newContext) ∧
    Context.PutImageData newContext { id := 0, width := 1, height := 1, released := true } 0 0 =
      (some "ImageData: use after release", newContext) ∧
    Context.SetFillStylePattern newContext { id := 0, released := true } =
      (some "Pattern: use after release", newContext) := by
  refine ⟨c3_use_after_release.1 newContext { id := 3, released := true } 0 (.rgba 1 2 3 4) rfl,
    c3_use_after_release.2.2.1 newContext { id := 0, width := 1, height := 1, released := true }
      0 0 rfl,
    c3_use_after_release.2.2.2.2.2 newContext { id := 0, released := true } rfl⟩

/-- C4: releasing a live handle of any of the three kinds appends exactly
one release command (the release opcode byte followed by the 4 big-endian
id bytes), marks the handle released, and changes nothing else (error slot
and all id counters untouched); the second Release call on the result is
the identity (Pattern.Release is modelled from the spec, its source file
being absent). -/
theorem c4_release_idempotent :
    (∀ ctx : Context, ∀ g : Gradient, g.released = false →
      (Gradient.Release g ctx).2.buf.bytes = ctx.buf.bytes ++ bReleaseGradient :: be4 g.id ∧
      (Gradient.Release g ctx).2.buf.error = ctx.buf.error ∧
      (Gradient.Release g ctx).2.imageDataIDs = ctx.imageDataIDs ∧
      (Gradient.Release g ctx).2.gradientIDs = ctx.gradientIDs ∧
      (Gradient.Release g ctx).2.patternIDs = ctx.patternIDs ∧
      (Gradient.Release g ctx).1 = { id := g.id, released := true } ∧
      Gradient.Release (Gradient.Release g ctx).1 (Gradient.Release g ctx).2 =
        Gradient.Release g ctx) ∧
    (∀ ctx : Context, ∀ m : ImageData, m.released = false →
      (ImageData.Release m ctx).2.buf.bytes = ctx.buf.bytes ++ bReleaseImageData :: be4 m.id ∧
      (ImageData.Release m ctx).2.buf.error = ctx.buf.error ∧
      (ImageData.Release m ctx).2.imageDataIDs = ctx.imageDataIDs ∧
      (ImageData.Release m ctx).2.gradientIDs = ctx.gradientIDs ∧
      (ImageData.Release m ctx).2.patternIDs = ctx.patternIDs ∧
      (ImageData.Release m ctx).1 =
        { id := m.id, width := m.width, height := m.height, released := true } ∧
      ImageData.Release (ImageData.Release m ctx).1 (ImageData.Release m ctx).2 =
        ImageData.Release m ctx) ∧
    (∀ ctx : Context, ∀ p : Pattern, p.released = false →
      (Pattern.Release p ctx).2.buf.bytes = ctx.buf.bytes ++ bReleasePattern :: be4 p.id ∧
      (Pattern.Release p ctx).2.buf.error = ctx.buf.error ∧
      (Pattern.Release p ctx).2.imageDataIDs = ctx.imageDataIDs ∧
      (Pattern.Release p ctx).2.gradientIDs = ctx.gradientIDs ∧
      (Pattern.Release p ctx).2.patternIDs = ctx.patternIDs ∧
      (Pattern.Release p ctx).1 = { id := p.id, released := true } ∧
      Pattern.Release (Pattern.Release p ctx).1 (Pattern.Release p ctx).2 =
        Pattern.Release p ctx) := by
  refine ⟨?_, ?_, ?_⟩
  · intro ctx g h
    simp [Gradient.Release, h, Buffer.addByte, Buffer.addUint32]
  · intro ctx m h
    simp [ImageData.Release, h, Buffer.addByte, Buffer.addUint32]
  · intro ctx p h
    simp [Pattern.Release, h, Buffer.addByte, Buffer.addUint32]

/-- Witness for C4: a double release of each kind of live handle on a fresh
context emits exactly one release command. -/
theorem c4_release_idempotent_witness :
    (Gradient.Release { id := 7, released := false } newContext).2.buf.bytes =
      bReleaseGradient :: be4 7 ∧
    (ImageData.Release { id := 1, width := 2, height := 2, released := false }
      newContext).2.buf.bytes = bReleaseImageData :: be4 1 ∧
    (Pattern.Release { id := 0, released := false } newContext).2.buf.bytes =
      bReleasePattern :: be4 0 := by
  refine ⟨(c4_release_idempotent.1 newContext { id := 7, released := false } rfl).1,
    (c4_release_idempotent.2.1 newContext
      { id := 1, width := 2, height := 2, released := false } rfl).1,
    (c4_release_idempotent.2.2 newContext { id := 0, released := false } rfl).1⟩

/-- C8: each resource-creating operation hands out the current value of its
own kind's idGenerator counter and increments only that counter (uint32
wraparound); the other two kinds' counters are untouched. Consequently, on
a fresh context three successive same-kind creations receive ids 0, 1, 2 in
order, and a creation of a different kind interleaved after them still
receives id 0. -/
theorem c8_id_generation :
    (∀ ctx : Context, ∀ x0 y0 x1 y1 : Nat,
      (Context.CreateLinearGradient ctx x0 y0 x1 y1).2.id = ctx.gradientIDs ∧
      (Context.CreateLinearGradient ctx x0 y0 x1 y1).1.gradientIDs =
        (ctx.gradientIDs + 1) % 2 ^ 32 ∧
      (Context.CreateLinearGradient ctx x0 y0 x1 y1).1.imageDataIDs = ctx.imageDataIDs ∧
      (Context.CreateLinearGradient ctx x0 y0 x1 y1).1.patternIDs = ctx.patternIDs) ∧
    (∀ ctx : Context, ∀ x0 y0 r0 x1 y1 r1 : Nat,
      (Context.CreateRadialGradient ctx x0 y0 r0 x1 y1 r1).2.id = ctx.gradientIDs ∧
      (Context.CreateRadialGradient ctx x0 y0 r0 x1 y1 r1).1.gradientIDs =
        (ctx.gradientIDs + 1) % 2 ^ 32 ∧
      (Context.CreateRadialGradient ctx x0 y0 r0 x1 y1 r1).1.imageDataIDs =
        ctx.imageDataIDs ∧
      (Context.CreateRadialGradient ctx x0 y0 r0 x1 y1 r1).1.patternIDs = ctx.patternIDs) ∧
    (∀ ctx : Context, ∀ m : RGBAImage,
      (Context.CreateImageData ctx m).2.id = ctx.imageDataIDs ∧
      (Context.CreateImageData ctx m).1.imageDataIDs = (ctx.imageDataIDs + 1) % 2 ^ 32 ∧
      (Context.CreateImageData ctx m).1.gradientIDs = ctx.gradientIDs ∧
      (Context.CreateImageData ctx m).1.patternIDs = ctx.patternIDs) ∧
    (∀ ctx : Context, ∀ sx sy sw sh : Nat,
      (Context.GetImageData ctx sx sy sw sh).2.id = ctx.imageDataIDs ∧
      (Context.GetImageData ctx sx sy sw sh).1.imageDataIDs =
        (ctx.imageDataIDs + 1) % 2 ^ 32 ∧
      (Context.GetImageData ctx sx sy sw sh).1.gradientIDs = ctx.gradientIDs ∧
      (Context.GetImageData ctx sx sy sw sh).1.patternIDs = ctx.patternIDs) ∧
    (∀ ctx : Context, ∀ src : ImageData, ∀ rep : Nat, src.released = false →
      (Context.CreatePattern ctx src rep).2.2 =
        some { id := ctx.patternIDs, released := false } ∧
      (Context.CreatePattern ctx src rep).2.1.patternIDs = (ctx.patternIDs + 1) % 2 ^ 32 ∧
      (Context.CreatePattern ctx src rep).2.1.imageDataIDs = ctx.imageDataIDs ∧
      (Context.CreatePattern ctx src rep).2.1.gradientIDs = ctx.gradientIDs) ∧
    ((Context.CreateLinearGradient newContext 0 0 0 0).2.id = 0 ∧
     (Context.CreateRadialGradient (Context.CreateLinearGradient newContext 0 0 0 0).1
        0 0 0 0 0 0).2.id = 1 ∧
     (Context.CreateLinearGradient (Context.CreateRadialGradient
        (Context.CreateLinearGradient newContext 0 0 0 0).1 0 0 0 0 0 0).1 0 0 0 0).2.id
       = 2 ∧
     (Context.CreateImageData (Context.CreateLinearGradient newContext 0 0 0 0).1
        { width := 1, height := 1, pix := [0, 0, 0, 0] }).2.id = 0 ∧
     (Context.CreatePattern (Context.CreateLinearGradient newContext 0 0 0 0).1
        { id := 0, width := 1, height := 1, released := false } 0).2.2 =
       some { id := 0, released := false }) := by
  refine ⟨?_, ?_, ?_, ?_, ?_, ?_⟩
  · intro ctx x0 y0 x1 y1
    refine ⟨rfl, by norm_num [Context.CreateLinearGradient], rfl, rfl⟩
  · intro ctx x0 y0 r0 x1 y1 r1
    refine ⟨rfl, by norm_num [Context.CreateRadialGradient], rfl, rfl⟩
  · intro ctx m
    refine ⟨rfl, by norm_num [Context.CreateImageData], rfl, rfl⟩
  · intro ctx sx sy sw sh
    refine ⟨rfl, by norm_num [Context.GetImageData], rfl, rfl⟩
  · intro ctx src rep h
    refine ⟨by simp [Context.CreatePattern, h], by simp [Context.CreatePattern, h], ?_, ?_⟩
    · simp [Context.CreatePattern, h]
    · simp [Context.CreatePattern, h]
  · refine ⟨by decide, by decide, by decide, by decide, by decide⟩

/-- Witness for C8: on a fresh context, creating a pattern from a live
image hands out pattern id 0. -/
theorem c8_id_generation_witness :
    (Context.CreatePattern newContext
      { id := 5, width := 1, height := 1, released := false } 0).2.2 =
      some { id := 0, released := false } :=
  (c8_id_generation.2.2.2.2.1 newContext
    { id := 5, width := 1, height := 1, released := false } 0 rfl).1

end Canvas
